import Mathlib

/-!
Shallow embedding of `homework.py`: a polling bot that queries a review-status
API, validates the response shape, translates each work item's status into a
notification text via a fixed verdict catalog, and sends the texts through a
messaging bot, advancing a timestamp cursor between cycles.

Python values flowing through the program (decoded JSON payloads, the cursor
variable, dictionary fields) are modelled by the inductive type `Json`.
Raised Python exceptions are the `.error` channel of `Except PyExn`.
-/

namespace Homework

/-- Decoded JSON / Python values as they occur in the program. -/
inductive Json where
  | null
  | bool (b : Bool)
  | int (n : Int)
  | str (s : String)
  | list (xs : List Json)
  | dict (kvs : List (String × Json))
deriving Repr, BEq

mutual

/-- Decidable equality for `Json` (the nested `List` fields block deriving). -/
def Json.decEq : (a b : Json) → Decidable (a = b)
  | .null, .null => isTrue rfl
  | .bool a, .bool b =>
    match (inferInstance : Decidable (a = b)) with
    | isTrue h => isTrue (by rw [h])
    | isFalse h => isFalse (fun hh => h (by cases hh; rfl))
  | .int a, .int b =>
    match (inferInstance : Decidable (a = b)) with
    | isTrue h => isTrue (by rw [h])
    | isFalse h => isFalse (fun hh => h (by cases hh; rfl))
  | .str a, .str b =>
    match (inferInstance : Decidable (a = b)) with
    | isTrue h => isTrue (by rw [h])
    | isFalse h => isFalse (fun hh => h (by cases hh; rfl))
  | .list a, .list b =>
    match Json.decEqList a b with
    | isTrue h => isTrue (by rw [h])
    | isFalse h => isFalse (fun hh => h (by cases hh; rfl))
  | .dict a, .dict b =>
    match Json.decEqKvs a b with
    | isTrue h => isTrue (by rw [h])
    | isFalse h => isFalse (fun hh => h (by cases hh; rfl))
  | .null, .bool _ | .null, .int _ | .null, .str _ | .null, .list _
  | .null, .dict _ | .bool _, .null | .bool _, .int _ | .bool _, .str _
  | .bool _, .list _ | .bool _, .dict _ | .int _, .null | .int _, .bool _
  | .int _, .str _ | .int _, .list _ | .int _, .dict _ | .str _, .null
  | .str _, .bool _ | .str _, .int _ | .str _, .list _ | .str _, .dict _
  | .list _, .null | .list _, .bool _ | .list _, .int _ | .list _, .str _
  | .list _, .dict _ | .dict _, .null | .dict _, .bool _ | .dict _, .int _
  | .dict _, .str _ | .dict _, .list _ => isFalse (fun h => Json.noConfusion h)

def Json.decEqList : (xs ys : List Json) → Decidable (xs = ys)
  | [], [] => isTrue rfl
  | x :: xs, y :: ys =>
    match Json.decEq x y, Json.decEqList xs ys with
    | isTrue h1, isTrue h2 => isTrue (by rw [h1, h2])
    | isFalse h1, _ => isFalse (fun hh => h1 (by cases hh; rfl))
    | _, isFalse h2 => isFalse (fun hh => h2 (by cases hh; rfl))
  | [], _ :: _ => isFalse (fun h => List.noConfusion h)
  | _ :: _, [] => isFalse (fun h => List.noConfusion h)

def Json.decEqKvs : (xs ys : List (String × Json)) → Decidable (xs = ys)
  | [], [] => isTrue rfl
  | (k1, v1) :: xs, (k2, v2) :: ys =>
    match (inferInstance : Decidable (k1 = k2)), Json.decEq v1 v2, Json.decEqKvs xs ys with
    | isTrue h0, isTrue h1, isTrue h2 => isTrue (by rw [h0, h1, h2])
    | isFalse h0, _, _ => isFalse (fun hh => h0 (by cases hh; rfl))
    | _, isFalse h1, _ => isFalse (fun hh => h1 (by cases hh; rfl))
    | _, _, isFalse h2 => isFalse (fun hh => h2 (by cases hh; rfl))
  | [], _ :: _ => isFalse (fun h => List.noConfusion h)
  | _ :: _, [] => isFalse (fun h => List.noConfusion h)

end

instance : DecidableEq Json := Json.decEq

/-- Python exceptions raised by the embedded functions.  Constructors carry
the message argument where the source passes one; `keyError` takes an
`Option` because `check_response` raises a bare `KeyError` while
`parse_status` raises `KeyError(msg)`. -/
inductive PyExn where
  | assertionError (msg : String)
  | attributeError
  | jsonDecodeError
  | responseError
  | typeError
  | keyError (arg : Option String)
  | valueError (msg : String)
deriving Repr, BEq, DecidableEq

/-- Python truthiness (`bool(v)`) for the modelled values. -/
def truthy : Json → Bool
  | .null => false
  | .bool b => b
  | .int n => n != 0
  | .str s => s != ""
  | .list xs => !xs.isEmpty
  | .dict kvs => !kvs.isEmpty

/-- `d.get(k)` on a Python dict entry list: first binding of `k`, else `None`. -/
def dget (kvs : List (String × Json)) (k : String) : Json :=
  match kvs.find? (fun p => p.1 == k) with
  | some p => p.2
  | none => Json.null

/-- `d.get(k)` lifted to a `Json` value already known to be a dict
(`check_response` guarantees this before `main` calls `.get`). -/
def jget (j : Json) (k : String) : Json :=
  match j with
  | .dict kvs => dget kvs k
  | _ => Json.null

/-- Python `==` on the values compared by the program.  Numeric cross-equality
`True == 1` / `False == 0` is kept; container comparison falls back to
structural equality, which agrees with Python on every value the program
actually compares (the cursor and `current_date`: integers and `None`). -/
def pyEq (a b : Json) : Bool :=
  match a, b with
  | .bool x, .int n => (if x then (1 : Int) else 0) == n
  | .int n, .bool x => n == (if x then (1 : Int) else 0)
  | _, _ => decide (a = b)

/-- Python `str(v)` as used by the f-string in `parse_status`.  Exact for the
strings and integers that reach formatting; containers are rendered
structurally (never reached by a claim). -/
def pyStr : Json → String
  | .null => "None"
  | .bool true => "True"
  | .bool false => "False"
  | .int n => toString n
  | .str s => s
  | .list _ => "[...]"
  | .dict _ => "\x7b...\x7d"

/-- `HOMEWORK_VERDICTS`: the fixed status-to-verdict catalog (source lines
26-30). -/
def HOMEWORK_VERDICTS : List (String × String) :=
  [("approved", "Работа проверена: ревьюеру всё понравилось. Ура!"),
   ("reviewing", "Работа взята на проверку ревьюером."),
   ("rejected", "Работа проверена: у ревьюера есть замечания.")]

/-- `HOMEWORK_VERDICTS.get(status)`: `None` for an unknown key.  A list or
dict key would be unhashable in Python (a `TypeError` the program can never
reach: such a status is truthy but the lookup raises before `not verdict`);
modelled in the error channel for faithfulness. -/
def verdictGet : Json → Except PyExn (Option String)
  | .str s => .ok (HOMEWORK_VERDICTS.lookup s)
  | .list _ => .error .typeError
  | .dict _ => .error .typeError
  | _ => .ok none

/-- What `requests.get(ENDPOINT, ...)` does on one call: either it raises a
connection-level `RequestException` (connection failure, timeout), or it
yields a response with a status code and a body that is or is not parseable
JSON. -/
inductive HttpOutcome where
  | connError
  | response (status : Nat) (body : Option Json)
deriving Repr, DecidableEq

/-- `isinstance(timestamp, int)`: a Python `bool` is a subclass of `int` and
passes the check. -/
def isinstance_int : Json → Bool
  | .int _ => true
  | .bool _ => true
  | _ => false

/-- `get_api_answer(timestamp)` (source lines 94-124).

The `assert isinstance(timestamp, int)` raises `AssertionError` for a
non-integer timestamp (a Python `bool` is an `int` and passes).  On a
non-200 status the code raises `HTTPError(response)` into its own `except`
block, which (as for a connection error) iterates over the `errors` tuple
and reads `error.status_code` — an attribute neither `HTTPError` built this
way nor a connection error has, so `AttributeError` propagates.  On a 200
response whose body is not JSON, the logged `response.json()` failure is
followed by `return response.json()`, which raises `JSONDecodeError`
uncaught.  Only a 200 response with a parseable body returns its payload. -/
def get_api_answer (timestamp : Json) (outcome : HttpOutcome) : Except PyExn Json :=
  if isinstance_int timestamp then
    match outcome with
    | .connError => .error .attributeError
    | .response status body =>
      if status ≠ 200 then .error .attributeError
      else
        match body with
        | some j => .ok j
        | none => .error .jsonDecodeError
  else .error (.assertionError "Дата передана в запрос в неверном формате.")

/-- `check_response(response)` (source lines 127-142).  Each failing branch
logs a distinct `logging.error` line and raises a bare exception; the model
pairs the exception with that log line, since together they are the
function's observable error output.  On success it returns
`response['homeworks']` unchanged. -/
def check_response (response : Json) : Except (PyExn × String) (List Json) :=
  if !truthy response then
    .error (.responseError, "Нет ответа от сервера.")
  else
    match response with
    | .dict kvs =>
      match kvs.find? (fun p => p.1 == "homeworks") with
      | none =>
        .error (.keyError none, "В ответе API отсутствует ключ - домашние работы.")
      | some p =>
        match p.2 with
        | .list xs => .ok xs
        | _ => .error (.typeError, "В ответе API домашние работы - не список.")
    | _ => .error (.typeError, "Ответ от сервера - не словарь.")

/-- `parse_status(homework)` (source lines 145-157).  `.get` on a non-dict
would raise `AttributeError`; with both fields present and truthy the
verdict lookup decides between the unknown-status `ValueError` and the
formatted notification text. -/
def parse_status (homework : Json) : Except PyExn String :=
  match homework with
  | .dict kvs =>
    let homework_name := dget kvs "homework_name"
    let homework_status := dget kvs "status"
    if !(truthy homework_name && truthy homework_status) then
      .error (.keyError (some "В ответе API отсутствует имя работы или статус."))
    else
      match verdictGet homework_status with
      | .error e => .error e
      | .ok verdict =>
        if verdict.getD "" == "" then
          .error (.valueError
            ("Недокументированный статус домашней работы - "
              ++ pyStr homework_status ++ "."))
        else
          .ok ("Изменился статус проверки работы \"" ++ pyStr homework_name
            ++ "\". " ++ verdict.getD "")
  | _ => .error .attributeError

/-- The outcome of one `bot.send_message(...)` call by the external
messaging collaborator: success, or a raised `ApiException` carrying a
description. -/
inductive DeliverOutcome where
  | success
  | apiException (desc : String)
deriving Repr, DecidableEq

/-- The value `send_message` returns: `None` on success, `ContinueHandling()`
when the delivery failed and was caught. -/
inductive SendRet where
  | normal
  | continueHandling
deriving Repr, DecidableEq

/-- `send_message(bot, message)` (source lines 80-91): the `except
ApiException` catches the only failure the collaborator raises, logs it and
returns `ContinueHandling()`; no exception escapes and no retry occurs. -/
def send_message (d : DeliverOutcome) : Except PyExn SendRet :=
  match d with
  | .success => .ok .normal
  | .apiException _ => .ok .continueHandling

/-- One text handed to `send_message` during a cycle: a status notification
produced by `parse_status` inside the `for` loop, or the
`f'Сбой в работе программы: {error}.'` text sent from the `except` block
(sent for every caught error, because `error != ApiException` compares an
instance with a class and is always true). -/
inductive SentMsg where
  | note (text : String)
  | failure (e : PyExn)
deriving Repr, DecidableEq

/-- Observable result of one iteration of the `while True` body in `main`
(source lines 169-188): the cursor variable `timestamp_1` afterwards, every
`send_message` call in order paired with the collaborator's outcome for it,
and whether `get_api_answer` returned without raising. -/
structure CycleOut where
  cursor : Json
  sent : List (SentMsg × DeliverOutcome)
  pollOk : Bool
deriving Repr, DecidableEq

/-- The `for homework in homeworks` loop (source lines 178-181): each
iteration first assigns `timestamp_1 = timestamp_2`, then parses; a
`parse_status` exception stops the loop and propagates (third component).
`acc` holds the sends made so far in this cycle; the collaborator outcome of
the n-th send of the cycle is `del n`. -/
def notifyLoop (del : Nat → DeliverOutcome) (timestamp_2 : Json) (cursor : Json)
    (items : List Json) (acc : List (SentMsg × DeliverOutcome)) :
    Json × List (SentMsg × DeliverOutcome) × Option PyExn :=
  match items with
  | [] => (cursor, acc, none)
  | hw :: rest =>
    match parse_status hw with
    | .error e => (timestamp_2, acc, some e)
    | .ok msg =>
      notifyLoop del timestamp_2 timestamp_2 rest
        (acc ++ [(.note msg, del acc.length)])

/-- One iteration of the `try/except/finally` body of `main`'s loop, given
the cursor (`timestamp_1`), this cycle's HTTP outcome and the collaborator's
delivery outcomes.  The `timestamp_2` assignment always takes the
`.get('current_date')` branch (`if True`); the notification loop runs only
when `homeworks` is truthy and `timestamp_1 != timestamp_2`; any exception
falls to the `except` block, which sends the failure text and leaves the
loop body. -/
def runCycle (del : Nat → DeliverOutcome) (cursor : Json)
    (outcome : HttpOutcome) : CycleOut :=
  match get_api_answer cursor outcome with
  | .error e => { cursor := cursor, sent := [(.failure e, del 0)], pollOk := false }
  | .ok resp =>
    match check_response resp with
    | .error (e, _) =>
      { cursor := cursor, sent := [(.failure e, del 0)], pollOk := true }
    | .ok homeworks =>
      let timestamp_2 := jget resp "current_date"
      if !homeworks.isEmpty && !pyEq cursor timestamp_2 then
        let res := notifyLoop del timestamp_2 cursor homeworks []
        { cursor := res.1,
          sent := res.2.1 ++ (match res.2.2 with
            | none => []
            | some e => [(.failure e, del res.2.1.length)]),
          pollOk := true }
      else { cursor := cursor, sent := [], pollOk := true }

/-- The status notifications actually delivered to `send_message` in a
cycle (the texts produced by `parse_status`, excluding failure reports). -/
def notes (out : CycleOut) : List String :=
  out.sent.filterMap (fun p => match p.1 with | .note t => some t | _ => none)

/-- Iterating `main`'s loop over a list of per-cycle HTTP outcomes. -/
def runCycles (del : Nat → DeliverOutcome) (cursor : Json) :
    List HttpOutcome → Json × List CycleOut
  | [] => (cursor, [])
  | o :: os =>
    let out := runCycle del cursor o
    let rest := runCycles del out.cursor os
    (rest.1, out :: rest.2)

/-- Python `is not dict`. -/
def isDict : Json → Bool
  | .dict _ => true
  | _ => false

/-- Python `is not list`. -/
def isList : Json → Bool
  | .list _ => true
  | _ => false

/-! Helper lemmas about the notification loop. -/

/-- Once `timestamp_1` already equals `timestamp_2`, every further loop
iteration reassigns the same value, so the cursor component stays put. -/
theorem notifyLoop_cursor_fixed (del : Nat → DeliverOutcome) (t2 : Json)
    (items : List Json) (acc : List (SentMsg × DeliverOutcome)) :
    (notifyLoop del t2 t2 items acc).1 = t2 := by
  induction items generalizing acc with
  | nil => rfl
  | cons hw rest ih =>
    unfold notifyLoop
    cases h : parse_status hw with
    | error e => simp [h]
    | ok m => simp [h, ih]

/-- On a non-empty item list the loop body runs at least once, so the cursor
component of the result is `timestamp_2` whether or not parsing failed. -/
theorem notifyLoop_cursor (del : Nat → DeliverOutcome) (t2 cur : Json)
    (hw : Json) (items : List Json) (acc : List (SentMsg × DeliverOutcome)) :
    (notifyLoop del t2 cur (hw :: items) acc).1 = t2 := by
  unfold notifyLoop
  cases h : parse_status hw with
  | error e => simp [h]
  | ok m => simp [h, notifyLoop_cursor_fixed]

/-- The texts attempted, the final cursor and the propagated exception of the
notification loop do not depend on the collaborator's delivery outcomes. -/
theorem notifyLoop_del_indep (del₁ del₂ : Nat → DeliverOutcome) (t2 : Json)
    (items : List Json) :
    ∀ (cur : Json) (acc₁ acc₂ : List (SentMsg × DeliverOutcome)),
      acc₁.map Prod.fst = acc₂.map Prod.fst →
      (notifyLoop del₁ t2 cur items acc₁).1 = (notifyLoop del₂ t2 cur items acc₂).1 ∧
      (notifyLoop del₁ t2 cur items acc₁).2.1.map Prod.fst
        = (notifyLoop del₂ t2 cur items acc₂).2.1.map Prod.fst ∧
      (notifyLoop del₁ t2 cur items acc₁).2.2 = (notifyLoop del₂ t2 cur items acc₂).2.2 := by
  induction items with
  | nil => intro cur acc₁ acc₂ hmap; exact ⟨rfl, hmap, rfl⟩
  | cons hw rest ih =>
    intro cur acc₁ acc₂ hmap
    unfold notifyLoop
    cases h : parse_status hw with
    | error e => simp [h, hmap]
    | ok m =>
      simp only [h]
      exact ih t2 _ _ (by simp [hmap])

/-! Helper lemmas about the verdict catalog. -/

theorem lookup_verdicts (s v : String)
    (hv : HOMEWORK_VERDICTS.lookup s = some v) :
    (s = "approved" ∧ v = "Работа проверена: ревьюеру всё понравилось. Ура!") ∨
    (s = "reviewing" ∧ v = "Работа взята на проверку ревьюером.") ∨
    (s = "rejected" ∧ v = "Работа проверена: у ревьюера есть замечания.") := by
  by_cases h1 : s = "approved"
  · subst h1
    have h : HOMEWORK_VERDICTS.lookup "approved"
        = some "Работа проверена: ревьюеру всё понравилось. Ура!" := rfl
    rw [h] at hv
    exact Or.inl ⟨rfl, (Option.some.inj hv).symm⟩
  · by_cases h2 : s = "reviewing"
    · subst h2
      have h : HOMEWORK_VERDICTS.lookup "reviewing"
          = some "Работа взята на проверку ревьюером." := rfl
      rw [h] at hv
      exact Or.inr (Or.inl ⟨rfl, (Option.some.inj hv).symm⟩)
    · by_cases h3 : s = "rejected"
      · subst h3
        have h : HOMEWORK_VERDICTS.lookup "rejected"
            = some "Работа проверена: у ревьюера есть замечания." := rfl
        rw [h] at hv
        exact Or.inr (Or.inr ⟨rfl, (Option.some.inj hv).symm⟩)
      · have e1 : (s == "approved") = false := beq_eq_false_iff_ne.mpr h1
        have e2 : (s == "reviewing") = false := beq_eq_false_iff_ne.mpr h2
        have e3 : (s == "rejected") = false := beq_eq_false_iff_ne.mpr h3
        simp [HOMEWORK_VERDICTS, List.lookup, e1, e2, e3] at hv

theorem lookup_verdicts_keys (s : String) :
    (HOMEWORK_VERDICTS.lookup s).isSome = true ↔
      s = "approved" ∨ s = "reviewing" ∨ s = "rejected" := by
  constructor
  · intro h
    obtain ⟨v, hv⟩ := Option.isSome_iff_exists.mp h
    rcases lookup_verdicts s v hv with ⟨h, _⟩ | ⟨h, _⟩ | ⟨h, _⟩ <;>
      simp [h]
  · rintro (rfl | rfl | rfl) <;> rfl

/-! The claims. -/

/-- Claim C5: with prior cursor 1, a cycle on the response
`homeworks = [(homework_name hw1, status approved)], current_date = 1000`
delivers exactly one message, with the exact approved-verdict text, and the
cursor becomes 1000 — for any delivery outcomes the collaborator produces. -/
theorem C5_confirmed (del : Nat → DeliverOutcome) :
    runCycle del (.int 1) (.response 200 (some (.dict
      [("homeworks", .list [.dict [("homework_name", .str "hw1"),
                                   ("status", .str "approved")]]),
       ("current_date", .int 1000)])))
      = { cursor := .int 1000,
          sent := [(.note "Изменился статус проверки работы \"hw1\". Работа проверена: ревьюеру всё понравилось. Ура!",
                    del 0)],
          pollOk := true } := by
  rfl

/-- Claim C10: when a valid response has a non-empty homeworks list but its
`current_date` equals the current cursor, the gate
`timestamp_1 != timestamp_2` is false, so the cycle sends nothing and the
cursor is unchanged. -/
theorem C10_confirmed (del : Nat → DeliverOutcome) (n : Int) (r : Json)
    (hws : List Json) (hcheck : check_response r = .ok hws) (hne : hws ≠ [])
    (heq : pyEq (.int n) (jget r "current_date") = true) :
    (runCycle del (.int n) (.response 200 (some r))).sent = [] ∧
    (runCycle del (.int n) (.response 200 (some r))).cursor = .int n := by
  constructor <;>
    simp [runCycle, get_api_answer, isinstance_int, hcheck, heq]

/-- Witness for C10: cursor 1000, response with one item and
`current_date = 1000`. -/
theorem C10_confirmed_witness :
    (runCycle (fun _ => .success) (.int 1000) (.response 200 (some (.dict
      [("homeworks", .list [.dict [("homework_name", .str "hw1"),
                                   ("status", .str "approved")]]),
       ("current_date", .int 1000)])))).sent = [] ∧
    (runCycle (fun _ => .success) (.int 1000) (.response 200 (some (.dict
      [("homeworks", .list [.dict [("homework_name", .str "hw1"),
                                   ("status", .str "approved")]]),
       ("current_date", .int 1000)])))).cursor = .int 1000 :=
  C10_confirmed (fun _ => .success) 1000 _
    [.dict [("homework_name", .str "hw1"), ("status", .str "approved")]]
    rfl (by simp) (by decide)

/-- Counterexample to claim C2: the code has no guard at all on the value
taken from `current_date`.  With cursor 1000 and one translatable item, a
response carrying `current_date = 5` moves the cursor back to 5, one with
`current_date = -7` moves it to -7, and one without `current_date` sets it
to `None` — advancing with a smaller, negative or null value is not a
no-op. -/
theorem C2_counterexample :
    (runCycle (fun _ => .success) (.int 1000) (.response 200 (some (.dict
      [("homeworks", .list [.dict [("homework_name", .str "hw1"),
                                   ("status", .str "approved")]]),
       ("current_date", .int 5)])))).cursor = .int 5 ∧
    (runCycle (fun _ => .success) (.int 1000) (.response 200 (some (.dict
      [("homeworks", .list [.dict [("homework_name", .str "hw1"),
                                   ("status", .str "approved")]]),
       ("current_date", .int (-7))])))).cursor = .int (-7) ∧
    (runCycle (fun _ => .success) (.int 1000) (.response 200 (some (.dict
      [("homeworks", .list [.dict [("homework_name", .str "hw1"),
                                   ("status", .str "approved")]])])))).cursor
      = .null :=
  ⟨rfl, rfl, rfl⟩

/-- Claim C2 as amended: the cursor is reassigned only when the homeworks
list is non-empty and `current_date` differs from the cursor; in that case
it is set to `current_date` unconditionally — whether larger, smaller,
negative or null — so the cursor is not monotone. -/
theorem C2_amended (del : Nat → DeliverOutcome) (n : Int) (r : Json)
    (hws : List Json) (hcheck : check_response r = .ok hws) :
    (hws = [] → (runCycle del (.int n) (.response 200 (some r))).cursor = .int n) ∧
    (pyEq (.int n) (jget r "current_date") = true →
      (runCycle del (.int n) (.response 200 (some r))).cursor = .int n) ∧
    (hws ≠ [] → pyEq (.int n) (jget r "current_date") = false →
      (runCycle del (.int n) (.response 200 (some r))).cursor
        = jget r "current_date") := by
  refine ⟨?_, ?_, ?_⟩
  · intro h; subst h
    simp [runCycle, get_api_answer, isinstance_int, hcheck]
  · intro h
    simp [runCycle, get_api_answer, isinstance_int, hcheck, h]
  · intro h1 h2
    obtain ⟨hw, rest, rfl⟩ : ∃ hw rest, hws = hw :: rest := by
      cases hws with
      | nil => exact absurd rfl h1
      | cons a b => exact ⟨a, b, rfl⟩
    simp [runCycle, get_api_answer, isinstance_int, hcheck, h2,
      notifyLoop_cursor]

/-- Witness for the amended C2: cursor 1000, `current_date = 5`, non-empty
list — the cursor becomes 5. -/
theorem C2_amended_witness :
    (runCycle (fun _ => .success) (.int 1000) (.response 200 (some (.dict
      [("homeworks", .list [.dict [("homework_name", .str "hw1"),
                                   ("status", .str "approved")]]),
       ("current_date", .int 5)])))).cursor
      = jget (.dict
          [("homeworks", .list [.dict [("homework_name", .str "hw1"),
                                       ("status", .str "approved")]]),
           ("current_date", .int 5)]) "current_date" :=
  (C2_amended (fun _ => .success) 1000
    (.dict [("homeworks", .list [.dict [("homework_name", .str "hw1"),
                                        ("status", .str "approved")]]),
            ("current_date", .int 5)])
    [.dict [("homework_name", .str "hw1"), ("status", .str "approved")]]
    rfl).2.2 (by simp) (by decide)

/-- Counterexample to claim C4: a successful cycle with an empty homeworks
list does NOT advance the cursor to the response's `current_date` — the
assignment to `timestamp_1` sits inside the `for` loop, which never runs.
With cursor 1 and `current_date = 1000`, the cursor stays 1. -/
theorem C4_counterexample :
    (runCycle (fun _ => .success) (.int 1) (.response 200 (some (.dict
      [("homeworks", .list []), ("current_date", .int 1000)])))).cursor
      = .int 1 ∧
    (runCycle (fun _ => .success) (.int 1) (.response 200 (some (.dict
      [("homeworks", .list []), ("current_date", .int 1000)])))).sent = [] ∧
    jget (.dict [("homeworks", .list []), ("current_date", .int 1000)])
      "current_date" = .int 1000 :=
  ⟨rfl, rfl, rfl⟩

/-- Claim C4 as amended: a successful cycle with an empty validated
homeworks list is a trivial success — nothing is sent — but the cursor is
never advanced, whatever `current_date` holds. -/
theorem C4_amended (del : Nat → DeliverOutcome) (n : Int) (r : Json)
    (hcheck : check_response r = .ok []) :
    (runCycle del (.int n) (.response 200 (some r))).sent = [] ∧
    (runCycle del (.int n) (.response 200 (some r))).cursor = .int n := by
  constructor <;> simp [runCycle, get_api_answer, isinstance_int, hcheck]

/-- Witness for the amended C4. -/
theorem C4_amended_witness :
    (runCycle (fun _ => .success) (.int 1) (.response 200 (some (.dict
      [("homeworks", .list []), ("current_date", .int 1000)])))).sent = [] ∧
    (runCycle (fun _ => .success) (.int 1) (.response 200 (some (.dict
      [("homeworks", .list []), ("current_date", .int 1000)])))).cursor
      = .int 1 :=
  C4_amended (fun _ => .success) 1 _ rfl

/-- Counterexample to claim C1: with cursor 1 and a response holding two
items — the first `approved`, the second with the unknown status
`archived` — the cycle delivers the first item's notification (not zero)
and the cursor has already been advanced to `current_date = 1000` (not
unchanged) when the second item's translation raises. -/
theorem C1_counterexample :
    notes (runCycle (fun _ => .success) (.int 1) (.response 200 (some (.dict
      [("homeworks", .list
         [.dict [("homework_name", .str "hw1"), ("status", .str "approved")],
          .dict [("homework_name", .str "hw2"), ("status", .str "archived")]]),
       ("current_date", .int 1000)]))))
      = ["Изменился статус проверки работы \"hw1\". Работа проверена: ревьюеру всё понравилось. Ура!"] ∧
    (runCycle (fun _ => .success) (.int 1) (.response 200 (some (.dict
      [("homeworks", .list
         [.dict [("homework_name", .str "hw1"), ("status", .str "approved")],
          .dict [("homework_name", .str "hw2"), ("status", .str "archived")]]),
       ("current_date", .int 1000)])))).cursor = .int 1000 :=
  ⟨rfl, rfl⟩

/-- Claim C1 as amended: in a cycle whose response holds two items, the
first translating to `m` and the second failing translation with `e`, the
first item's notification has already been delivered, the cursor has
already been advanced to `current_date` (each loop iteration assigns
`timestamp_1 = timestamp_2` before parsing), and only the remainder of the
cycle's notifications is aborted: the cycle's sends are exactly the first
notification followed by the failure report for `e`. -/
theorem C1_amended (del : Nat → DeliverOutcome) (n : Int) (r : Json)
    (hw1 hw2 : Json) (m : String) (e : PyExn)
    (hcheck : check_response r = .ok [hw1, hw2])
    (h1 : parse_status hw1 = .ok m) (h2 : parse_status hw2 = .error e)
    (hne : pyEq (.int n) (jget r "current_date") = false) :
    (runCycle del (.int n) (.response 200 (some r))).cursor
      = jget r "current_date" ∧
    notes (runCycle del (.int n) (.response 200 (some r))) = [m] ∧
    (runCycle del (.int n) (.response 200 (some r))).sent
      = [(.note m, del 0), (.failure e, del 1)] := by
  refine ⟨?_, ?_, ?_⟩ <;>
    simp [runCycle, get_api_answer, isinstance_int, hcheck, hne,
      notifyLoop, h1, h2, notes]

/-- Witness for the amended C1: the concrete two-item response of the
scenario. -/
theorem C1_amended_witness :
    (runCycle (fun _ => .success) (.int 1) (.response 200 (some (.dict
      [("homeworks", .list
         [.dict [("homework_name", .str "hw1"), ("status", .str "approved")],
          .dict [("homework_name", .str "hw2"), ("status", .str "archived")]]),
       ("current_date", .int 1000)])))).sent
      = [(.note "Изменился статус проверки работы \"hw1\". Работа проверена: ревьюеру всё понравилось. Ура!",
          .success),
         (.failure (.valueError "Недокументированный статус домашней работы - archived."),
          .success)] :=
  (C1_amended (fun _ => .success) 1
    (.dict
      [("homeworks", .list
         [.dict [("homework_name", .str "hw1"), ("status", .str "approved")],
          .dict [("homework_name", .str "hw2"), ("status", .str "archived")]]),
       ("current_date", .int 1000)])
    (.dict [("homework_name", .str "hw1"), ("status", .str "approved")])
    (.dict [("homework_name", .str "hw2"), ("status", .str "archived")])
    "Изменился статус проверки работы \"hw1\". Работа проверена: ревьюеру всё понравилось. Ура!"
    (.valueError "Недокументированный статус домашней работы - archived.")
    rfl rfl rfl (by decide)).2.2

/-- Counterexample to claim C3: `get_api_answer` does not return a
classified error result for the expected failure outcomes — it raises (the
`.error` channel here is a raised Python exception, caught only by `main`'s
blanket `except`).  Worse, a connection failure, a 500, a 429 and a 404 all
raise the SAME `AttributeError` (the classification loop reads the
non-existent `error.status_code`), so no discrimination ever reaches the
caller, and a 200 response with an unparseable body raises
`JSONDecodeError` from the uncaught second `response.json()` call. -/
theorem C3_counterexample :
    get_api_answer (.int 1) .connError = .error .attributeError ∧
    get_api_answer (.int 1) (.response 500 (some (.dict [])))
      = .error .attributeError ∧
    get_api_answer (.int 1) (.response 429 (some (.dict [])))
      = .error .attributeError ∧
    get_api_answer (.int 1) (.response 404 (some (.dict [])))
      = .error .attributeError ∧
    get_api_answer (.int 1) (.response 200 none) = .error .jsonDecodeError :=
  ⟨rfl, rfl, rfl, rfl, rfl⟩

/-- Claim C3 as amended: `get_api_answer` raises for every expected failure
outcome instead of returning a discriminated result: `AttributeError` for a
connection failure or timeout and for every non-200 status alike (5xx, 429
and other 4xx are indistinguishable to the caller), `JSONDecodeError` for a
200 response whose body is not parseable JSON, and `AssertionError` for a
non-integer window-start; it returns normally only for a 200 response with
a parseable body. -/
theorem C3_amended (n : Int) (s : Nat) (b : Option Json) (j : Json)
    (t : Json) (o : HttpOutcome) :
    (get_api_answer (.int n) .connError = .error .attributeError) ∧
    (s ≠ 200 → get_api_answer (.int n) (.response s b) = .error .attributeError) ∧
    (get_api_answer (.int n) (.response 200 none) = .error .jsonDecodeError) ∧
    (get_api_answer (.int n) (.response 200 (some j)) = .ok j) ∧
    (isinstance_int t = false →
      get_api_answer t o
        = .error (.assertionError "Дата передана в запрос в неверном формате.")) := by
  refine ⟨rfl, ?_, rfl, rfl, ?_⟩
  · intro hs
    simp [get_api_answer, isinstance_int, hs]
  · intro ht
    simp [get_api_answer, ht]

/-- Witness for the amended C3: a 500 response and a `None` window-start. -/
theorem C3_amended_witness :
    get_api_answer (.int 1) (.response 500 (some (.dict [])))
      = .error .attributeError ∧
    get_api_answer .null .connError
      = .error (.assertionError "Дата передана в запрос в неверном формате.") :=
  ⟨(C3_amended 1 500 (some (.dict [])) (.dict []) .null .connError).2.1
     (by decide),
   (C3_amended 1 500 (some (.dict [])) (.dict []) .null .connError).2.2.2.2
     rfl⟩

/-- Claim C6: for a work item whose fields are text, `parse_status` succeeds
exactly on a non-empty name and a status that is a key of
`HOMEWORK_VERDICTS` (whose keys are precisely `approved`, `reviewing`,
`rejected`); the success text is exactly the fixed form combining the name
and the catalog verdict; an empty or absent name or status raises the
incomplete-item `KeyError` — the failure conjuncts cover the empty name,
the empty status, the absent status, the absent name and the item with
both fields absent — and a non-empty status outside the catalog raises the
unknown-status `ValueError`, in particular status `archived` with name
`X`.  The last three general conjuncts give the only-if direction over
arbitrary items: success forces both fields truthy, a text name non-empty
and a text status in the catalog. -/
theorem C6_confirmed :
    (∀ n s v : String, n ≠ "" → HOMEWORK_VERDICTS.lookup s = some v →
      parse_status (.dict [("homework_name", .str n), ("status", .str s)])
        = .ok ("Изменился статус проверки работы \"" ++ n ++ "\". " ++ v)) ∧
    (∀ s : String, (HOMEWORK_VERDICTS.lookup s).isSome = true ↔
      s = "approved" ∨ s = "reviewing" ∨ s = "rejected") ∧
    (∀ s : String,
      parse_status (.dict [("homework_name", .str ""), ("status", .str s)])
        = .error (.keyError (some "В ответе API отсутствует имя работы или статус."))) ∧
    (∀ n : String,
      parse_status (.dict [("homework_name", .str n), ("status", .str "")])
        = .error (.keyError (some "В ответе API отсутствует имя работы или статус."))) ∧
    (∀ n : String,
      parse_status (.dict [("homework_name", .str n)])
        = .error (.keyError (some "В ответе API отсутствует имя работы или статус."))) ∧
    (∀ s : String,
      parse_status (.dict [("status", .str s)])
        = .error (.keyError (some "В ответе API отсутствует имя работы или статус."))) ∧
    parse_status (.dict [])
      = .error (.keyError (some "В ответе API отсутствует имя работы или статус.")) ∧
    (∀ (kvs : List (String × Json)) (m : String),
      parse_status (.dict kvs) = .ok m →
      truthy (dget kvs "homework_name") = true ∧
      truthy (dget kvs "status") = true) ∧
    (∀ (kvs : List (String × Json)) (m n : String),
      dget kvs "homework_name" = .str n →
      parse_status (.dict kvs) = .ok m → n ≠ "") ∧
    (∀ (kvs : List (String × Json)) (m s : String),
      dget kvs "status" = .str s →
      parse_status (.dict kvs) = .ok m →
      s = "approved" ∨ s = "reviewing" ∨ s = "rejected") ∧
    (∀ n s : String, n ≠ "" → s ≠ "" → HOMEWORK_VERDICTS.lookup s = none →
      parse_status (.dict [("homework_name", .str n), ("status", .str s)])
        = .error (.valueError
            ("Недокументированный статус домашней работы - " ++ s ++ "."))) ∧
    parse_status (.dict [("homework_name", .str "X"), ("status", .str "archived")])
      = .error (.valueError "Недокументированный статус домашней работы - archived.") := by
  refine ⟨?_, lookup_verdicts_keys, ?_, ?_, ?_, ?_, rfl, ?_, ?_, ?_, ?_, rfl⟩
  · intro n s v hn hv
    rcases lookup_verdicts s v hv with ⟨rfl, rfl⟩ | ⟨rfl, rfl⟩ | ⟨rfl, rfl⟩ <;>
      simp [parse_status, dget, verdictGet, truthy, pyStr, HOMEWORK_VERDICTS,
        List.lookup, hn]
  · intro s
    simp [parse_status, dget, truthy]
  · intro n
    simp [parse_status, dget, truthy]
  · intro n
    simp [parse_status, dget, truthy]
  · intro s
    simp [parse_status, dget, truthy]
  · intro kvs m hok
    cases hb : (truthy (dget kvs "homework_name") && truthy (dget kvs "status")) with
    | false =>
      exfalso
      simp [parse_status, hb] at hok
    | true => exact by simpa using hb
  · intro kvs m n hget hok
    intro heq
    subst heq
    simp [parse_status, hget, truthy] at hok
  · intro kvs m s hget hok
    cases hl : HOMEWORK_VERDICTS.lookup s with
    | none =>
      exfalso
      simp [parse_status, hget, verdictGet, hl] at hok
      split at hok <;> exact Except.noConfusion hok
    | some v => exact (lookup_verdicts_keys s).mp (by simp [hl])
  · intro n s hn hs hnone
    simp [parse_status, dget, verdictGet, truthy, pyStr, hn, hs, hnone]

/-- Witness for C6: the approved verdict on item `hw1`. -/
theorem C6_confirmed_witness :
    parse_status (.dict [("homework_name", .str "hw1"),
                         ("status", .str "approved")])
      = .ok ("Изменился статус проверки работы \"hw1\". Работа проверена: ревьюеру всё понравилось. Ура!") :=
  C6_confirmed.1 "hw1" "approved"
    "Работа проверена: ревьюеру всё понравилось. Ура!" (by decide) rfl

/-- Claim C7: `check_response` rejects, with four pairwise-distinct
observable errors (exception paired with its dedicated log line), a falsy
payload, a truthy non-dict payload, a dict without the `homeworks` key and
a dict whose `homeworks` value is not a list; on a dict whose `homeworks`
value is a list it returns that list unchanged. -/
theorem C7_confirmed :
    (∀ p : Json, truthy p = false →
      check_response p = .error (.responseError, "Нет ответа от сервера.")) ∧
    (∀ p : Json, truthy p = true → isDict p = false →
      check_response p = .error (.typeError, "Ответ от сервера - не словарь.")) ∧
    (∀ kvs : List (String × Json), truthy (.dict kvs) = true →
      kvs.find? (fun q => q.1 == "homeworks") = none →
      check_response (.dict kvs)
        = .error (.keyError none,
            "В ответе API отсутствует ключ - домашние работы.")) ∧
    (∀ (kvs : List (String × Json)) (q : String × Json),
      truthy (.dict kvs) = true →
      kvs.find? (fun q => q.1 == "homeworks") = some q → isList q.2 = false →
      check_response (.dict kvs)
        = .error (.typeError, "В ответе API домашние работы - не список.")) ∧
    (∀ (kvs : List (String × Json)) (k : String) (xs : List Json),
      truthy (.dict kvs) = true →
      kvs.find? (fun q => q.1 == "homeworks") = some (k, .list xs) →
      check_response (.dict kvs) = .ok xs) ∧
    (((.responseError, "Нет ответа от сервера.") : PyExn × String)
        ≠ (.typeError, "Ответ от сервера - не словарь.") ∧
      ((.responseError, "Нет ответа от сервера.") : PyExn × String)
        ≠ (.keyError none, "В ответе API отсутствует ключ - домашние работы.") ∧
      ((.responseError, "Нет ответа от сервера.") : PyExn × String)
        ≠ (.typeError, "В ответе API домашние работы - не список.") ∧
      ((.typeError, "Ответ от сервера - не словарь.") : PyExn × String)
        ≠ (.keyError none, "В ответе API отсутствует ключ - домашние работы.") ∧
      ((.typeError, "Ответ от сервера - не словарь.") : PyExn × String)
        ≠ (.typeError, "В ответе API домашние работы - не список.") ∧
      ((.keyError none, "В ответе API отсутствует ключ - домашние работы.")
          : PyExn × String)
        ≠ (.typeError, "В ответе API домашние работы - не список.")) := by
  refine ⟨?_, ?_, ?_, ?_, ?_, by decide⟩
  · intro p hp
    simp [check_response, hp]
  · intro p hp hd
    cases p <;> simp_all [check_response, isDict]
  · intro kvs ht hf
    simp [check_response, ht, hf]
  · intro kvs q ht hf hl
    rcases q with ⟨k, v⟩
    cases v <;> simp_all [check_response, isList]
  · intro kvs k xs ht hf
    simp [check_response, ht, hf]

/-- Witness for C7: the empty dict is falsy and rejected with the
no-server-answer error; a string-valued `homeworks` is rejected with the
not-a-list error. -/
theorem C7_confirmed_witness :
    check_response (.dict [])
      = .error (.responseError, "Нет ответа от сервера.") ∧
    check_response (.dict [("homeworks", .str "not-a-list"),
                           ("current_date", .int 1)])
      = .error (.typeError, "В ответе API домашние работы - не список.") :=
  ⟨C7_confirmed.1 (.dict []) rfl,
   (C7_confirmed.2.2.2.1
     [("homeworks", .str "not-a-list"), ("current_date", .int 1)]
     ("homeworks", .str "not-a-list") rfl rfl rfl)⟩

/-- Claim C8: a delivery failure never escapes `send_message` — it returns
normally (`None` on success, `ContinueHandling()` on a caught
`ApiException`), it is called once per message with no in-cycle retry, and
the texts attempted, the final cursor and the poll flag of a whole cycle
are identical whatever delivery outcomes the collaborator produces — so a
failed delivery aborts neither the remaining deliveries nor the cycle. -/
theorem C8_confirmed :
    (∀ d : DeliverOutcome,
      send_message d = .ok (match d with
        | .success => .normal
        | .apiException _ => .continueHandling)) ∧
    (∀ (del₁ del₂ : Nat → DeliverOutcome) (c : Json) (o : HttpOutcome),
      (runCycle del₁ c o).sent.map Prod.fst
          = (runCycle del₂ c o).sent.map Prod.fst ∧
        (runCycle del₁ c o).cursor = (runCycle del₂ c o).cursor ∧
        (runCycle del₁ c o).pollOk = (runCycle del₂ c o).pollOk) := by
  constructor
  · intro d; cases d <;> rfl
  · intro del₁ del₂ c o
    cases hapi : get_api_answer c o with
    | error e => simp [runCycle, hapi]
    | ok resp =>
      cases hchk : check_response resp with
      | error pe =>
        rcases pe with ⟨e, lg⟩
        simp [runCycle, hapi, hchk]
      | ok hws =>
        by_cases hgate :
            (!hws.isEmpty && !pyEq c (jget resp "current_date")) = true
        · obtain ⟨h1, h2, h3⟩ := notifyLoop_del_indep del₁ del₂
            (jget resp "current_date") hws c [] [] rfl
          refine ⟨?_, ?_, ?_⟩
          · simp only [runCycle, hapi, hchk, hgate, if_true, List.map_append]
            rw [h2, h3]
            cases (notifyLoop del₂ (jget resp "current_date") c hws []).2.2 <;>
              simp
          · simpa only [runCycle, hapi, hchk, hgate, if_true] using h1
          · simp [runCycle, hapi, hchk, hgate]
        · refine ⟨?_, ?_, ?_⟩ <;>
            simp [runCycle, hapi, hchk, hgate]

/-- Claim C9: a valid response with a non-empty homeworks list but no
`current_date` puts `None` into the cursor; from then on every cycle's
`get_api_answer` call fails its integer-timestamp assertion, so no later
cycle ever polls successfully or delivers a status notification, and the
cursor stays `None` forever. -/
theorem C9_confirmed (del : Nat → DeliverOutcome) (n : Int) (r : Json)
    (hws : List Json) (hcheck : check_response r = .ok hws) (hne : hws ≠ [])
    (hdate : jget r "current_date" = .null) :
    (runCycle del (.int n) (.response 200 (some r))).cursor = .null ∧
    ∀ os : List HttpOutcome,
      (runCycles del .null os).1 = .null ∧
      ∀ out ∈ (runCycles del .null os).2,
        out.pollOk = false ∧ notes out = [] := by
  constructor
  · obtain ⟨hw, rest, rfl⟩ : ∃ hw rest, hws = hw :: rest := by
      cases hws with
      | nil => exact absurd rfl hne
      | cons a b => exact ⟨a, b, rfl⟩
    have hne2 : pyEq (.int n) Json.null = false := rfl
    simp [runCycle, get_api_answer, isinstance_int, hcheck, hne2, hdate,
      notifyLoop_cursor]
  · intro os
    induction os with
    | nil => exact ⟨rfl, by intro out h; cases h⟩
    | cons o os ih =>
      have hout : runCycle del .null o
          = { cursor := .null,
              sent := [(.failure
                (.assertionError "Дата передана в запрос в неверном формате."),
                del 0)],
              pollOk := false } := rfl
      constructor
      · simpa [runCycles, hout] using ih.1
      · intro out hmem
        simp only [runCycles, hout] at hmem
        rcases List.mem_cons.mp hmem with rfl | hmem2
        · exact ⟨rfl, rfl⟩
        · exact ih.2 out hmem2

/-- Witness for C9: the one-item response without `current_date`, then one
further cycle. -/
theorem C9_confirmed_witness :
    (runCycle (fun _ => .success) (.int 1) (.response 200 (some (.dict
      [("homeworks", .list [.dict [("homework_name", .str "hw1"),
                                   ("status", .str "approved")]])])))).cursor
      = .null ∧
    (runCycles (fun _ => .success) .null [.connError]).1 = .null :=
  ⟨(C9_confirmed (fun _ => .success) 1
      (.dict [("homeworks", .list [.dict [("homework_name", .str "hw1"),
                                          ("status", .str "approved")]])])
      [.dict [("homework_name", .str "hw1"), ("status", .str "approved")]]
      rfl (by simp) rfl).1,
   ((C9_confirmed (fun _ => .success) 1
      (.dict [("homeworks", .list [.dict [("homework_name", .str "hw1"),
                                          ("status", .str "approved")]])])
      [.dict [("homework_name", .str "hw1"), ("status", .str "approved")]]
      rfl (by simp) rfl).2 [.connError]).1⟩

end Homework
